import Mathlib

/-!
Verification of the booking-lifecycle and seat-inventory subsystem of the
travel-booking application (apps `travel` and `bookings`).

Shallow embedding conventions:
* Timestamps (`timezone.now()`, `departure_datetime`) are integers counting
  seconds; `timedelta(hours=24)` is `86400`.  A datetime's calendar date
  (`.date()`) is its floor-division by `86400`, and the `.days` of a
  difference of two dates is the difference of those day numbers.
* `Decimal` money values, and the `float(...)` conversion inside
  `refund_amount`, are modelled as exact rational arithmetic over `ℚ`.
* Seat counters are `PositiveIntegerField`s, modelled as `ℕ`; the seat-count
  arguments of `reduce_available_seats` / `increase_available_seats` are seat
  counts and are likewise modelled as `ℕ`.
* Django model status fields are `CharField`s whose value is not checked
  against the declared choices at save time, so statuses are plain `String`s.
* Stateful methods become functions returning the updated record together
  with their Python return value; `timezone.now()` and the random part of a
  generated id become explicit parameters.  Persistence (`self.save(...)`)
  is identified with the in-memory record produced by the overridden `save`.
-/

namespace TravelApp

/-- Embedding of `travel.models.TravelOption` (src/travel/models.py), restricted
to the fields the booking-lifecycle claims read: departure time, price and the
seat pool.  Route, operator and description fields play no role in any claim. -/
structure TravelOption where
  departure_datetime : Int
  base_price : ℚ
  available_seats : Nat
  total_seats : Nat
  deriving Repr, DecidableEq

/-- Embedding of `bookings.models.Booking` (src/bookings/models.py), restricted
to the lifecycle-relevant fields.  `status` and `payment_status` are free
strings, exactly as Django persists them. -/
structure Booking where
  booking_id : String
  number_of_seats : Nat
  total_price : ℚ
  status : String
  payment_status : String
  confirmation_date : Option Int
  cancellation_date : Option Int
  deriving Repr, DecidableEq

/-- `TravelOption.can_be_cancelled` (src/travel/models.py:113-117):
`timezone.now() < departure_datetime - timedelta(hours=24)`. -/
def TravelOption.can_be_cancelled (t : TravelOption) (now : Int) : Bool :=
  now < t.departure_datetime - 24 * 3600

/-- `TravelOption.reduce_available_seats` (src/travel/models.py:145-151):
succeeds, decrementing by `count`, exactly when `available_seats >= count`;
otherwise returns `False` without mutating.  Returns (updated option, return
value). -/
def TravelOption.reduce_available_seats (t : TravelOption) (count : Nat) :
    TravelOption × Bool :=
  if count ≤ t.available_seats then
    ({ t with available_seats := t.available_seats - count }, true)
  else
    (t, false)

/-- `TravelOption.increase_available_seats` (src/travel/models.py:153-159):
succeeds, incrementing by `count`, exactly when
`available_seats + count <= total_seats`; otherwise returns `False` without
mutating. -/
def TravelOption.increase_available_seats (t : TravelOption) (count : Nat) :
    TravelOption × Bool :=
  if t.available_seats + count ≤ t.total_seats then
    ({ t with available_seats := t.available_seats + count }, true)
  else
    (t, false)

/-- A call to one of the two seat-pool mutators, with its seat-count argument. -/
inductive SeatOp where
  | reduce (n : Nat)
  | increase (n : Nat)
  deriving Repr, DecidableEq

/-- Apply one seat-pool call, keeping the updated `TravelOption` (the boolean
return value is irrelevant to the state). -/
def applySeatOp (t : TravelOption) (op : SeatOp) : TravelOption :=
  match op with
  | .reduce n => (t.reduce_available_seats n).1
  | .increase n => (t.increase_available_seats n).1

/-- Apply a finite sequence of seat-pool calls in order. -/
def applySeatOps (t : TravelOption) (ops : List SeatOp) : TravelOption :=
  ops.foldl applySeatOp t

theorem applySeatOp_total_seats (t : TravelOption) (op : SeatOp) :
    (applySeatOp t op).total_seats = t.total_seats := by
  cases op <;>
    simp only [applySeatOp, TravelOption.reduce_available_seats,
      TravelOption.increase_available_seats] <;>
    split <;> rfl

theorem applySeatOp_invariant (t : TravelOption) (op : SeatOp)
    (h : t.available_seats ≤ t.total_seats) :
    (applySeatOp t op).available_seats ≤ (applySeatOp t op).total_seats := by
  cases op with
  | reduce n =>
    simp only [applySeatOp, TravelOption.reduce_available_seats]
    split <;> simp <;> omega
  | increase n =>
    simp only [applySeatOp, TravelOption.increase_available_seats]
    split <;> simp <;> omega

/-- **C2.** Starting from any `TravelOption` with
`available_seats ≤ total_seats` (the lower bound `0 ≤ available_seats` is
built into the `ℕ` representation of `PositiveIntegerField`), every finite
sequence of `reduce_available_seats` / `increase_available_seats` calls, with
any seat-count arguments, preserves `available_seats ≤ total_seats`;
`total_seats` itself is never changed by these calls. -/
theorem seat_invariant_preserved (ops : List SeatOp) (t : TravelOption)
    (h : t.available_seats ≤ t.total_seats) :
    (applySeatOps t ops).available_seats ≤ (applySeatOps t ops).total_seats ∧
      (applySeatOps t ops).total_seats = t.total_seats := by
  induction ops generalizing t with
  | nil => exact ⟨h, rfl⟩
  | cons op ops ih =>
    have h1 := applySeatOp_invariant t op h
    have h2 := applySeatOp_total_seats t op
    have := ih (applySeatOp t op) (h2 ▸ h1)
    simpa [applySeatOps, h2] using this

/-- Witness for C2: a concrete option with 3 of 5 seats free, run through a
sequence that exercises both successful and failing reduce/increase calls. -/
theorem seat_invariant_preserved_witness :
    (applySeatOps ⟨0, 100, 3, 5⟩
        [SeatOp.reduce 2, SeatOp.increase 4, SeatOp.increase 3,
         SeatOp.reduce 9]).available_seats ≤
      (applySeatOps ⟨0, 100, 3, 5⟩
        [SeatOp.reduce 2, SeatOp.increase 4, SeatOp.increase 3,
         SeatOp.reduce 9]).total_seats :=
  (seat_invariant_preserved
    [SeatOp.reduce 2, SeatOp.increase 4, SeatOp.increase 3, SeatOp.reduce 9]
    ⟨0, 100, 3, 5⟩ (by decide)).1

/-- **C3.** Exact success/failure behaviour of the two seat-pool mutators:
`reduce_available_seats n` returns `True` iff `available_seats ≥ n`, in which
case it decrements by exactly `n` (and otherwise leaves the option unchanged);
`increase_available_seats n` returns `True` iff
`available_seats + n ≤ total_seats`, in which case it increments by exactly
`n` (and otherwise leaves the option unchanged). -/
theorem reduce_increase_spec (t : TravelOption) (n : Nat) :
    ((t.reduce_available_seats n).2 = true ↔ n ≤ t.available_seats) ∧
    (n ≤ t.available_seats →
      (t.reduce_available_seats n).1.available_seats + n = t.available_seats) ∧
    (¬ n ≤ t.available_seats → (t.reduce_available_seats n).1 = t) ∧
    ((t.increase_available_seats n).2 = true ↔
      t.available_seats + n ≤ t.total_seats) ∧
    (t.available_seats + n ≤ t.total_seats →
      (t.increase_available_seats n).1.available_seats =
        t.available_seats + n) ∧
    (¬ t.available_seats + n ≤ t.total_seats →
      (t.increase_available_seats n).1 = t) := by
  refine ⟨?_, ?_, ?_, ?_, ?_, ?_⟩ <;>
    simp only [TravelOption.reduce_available_seats,
      TravelOption.increase_available_seats] <;>
    split <;> simp_all

/-- Witness for C3: evaluate the characterisation on an option with 3 of 5
seats free and a request for 2 seats. -/
theorem reduce_increase_spec_witness :
    ((TravelOption.reduce_available_seats ⟨0, 100, 3, 5⟩ 2).2 = true ↔
      2 ≤ 3) ∧
    (TravelOption.reduce_available_seats ⟨0, 100, 3, 5⟩
      2).1.available_seats + 2 = 3 :=
  ⟨(reduce_increase_spec ⟨0, 100, 3, 5⟩ 2).1,
   (reduce_increase_spec ⟨0, 100, 3, 5⟩ 2).2.1 (by decide)⟩

/-- Calendar date of a timestamp: `.date()` of a UTC datetime, i.e. the day
number obtained by floor-dividing the timestamp by the length of a day. -/
def dateOf (x : Int) : Int :=
  Int.fdiv x 86400

/-- `Booking.is_past_travel` (src/bookings/models.py:128-131):
`travel_option.departure_datetime < timezone.now()`.  The referenced
`TravelOption` is passed explicitly. -/
def Booking.is_past_travel (_b : Booking) (t : TravelOption) (now : Int) : Bool :=
  decide (t.departure_datetime < now)

/-- `Booking.can_be_cancelled` (src/bookings/models.py:112-126): false for
status CANCELLED/COMPLETED; false if travel is past; otherwise delegates to
`travel_option.can_be_cancelled`.  The `hasattr` guard in the source always
succeeds, because `TravelOption` defines `can_be_cancelled`, so the trailing
`return True` is unreachable. -/
def Booking.can_be_cancelled (b : Booking) (t : TravelOption) (now : Int) : Bool :=
  if b.status = "CANCELLED" ∨ b.status = "COMPLETED" then false
  else if Booking.is_past_travel b t now then false
  else TravelOption.can_be_cancelled t now

/-- `Booking.days_until_travel` (src/bookings/models.py:133-140): 0 if travel
is past, else the `.days` of the difference between the departure's calendar
date and today's calendar date. -/
def Booking.days_until_travel (b : Booking) (t : TravelOption) (now : Int) : Int :=
  if Booking.is_past_travel b t now then 0
  else dateOf t.departure_datetime - dateOf now

/-- `Booking.refund_amount` (src/bookings/models.py:142-158): 0 unless
`can_be_cancelled`; otherwise 90% / 75% / 50% / 0% of `total_price` by
`days_until_travel` thresholds 7 / 3 / 1.  The source's
`float(self.total_price) * 0.9` (etc.) is modelled as exact rational
arithmetic; the property only reads state. -/
def Booking.refund_amount (b : Booking) (t : TravelOption) (now : Int) : ℚ :=
  if ¬ Booking.can_be_cancelled b t now then 0
  else
    let days_before := Booking.days_until_travel b t now
    if 7 ≤ days_before then b.total_price * (9 / 10)
    else if 3 ≤ days_before then b.total_price * (3 / 4)
    else if 1 ≤ days_before then b.total_price * (1 / 2)
    else 0

/-- `Booking.save` (src/bookings/models.py:160-173): generates a booking id
when missing (the random id is the `fresh` parameter), back-fills
`confirmation_date` when status is CONFIRMED and the date is unset, and
back-fills `cancellation_date` when status is CANCELLED and the date is
unset, then persists. -/
def Booking.save (b : Booking) (fresh : String) (now : Int) : Booking :=
  let b1 := if b.booking_id = "" then { b with booking_id := fresh } else b
  let b2 :=
    if b1.status = "CONFIRMED" ∧ b1.confirmation_date = none then
      { b1 with confirmation_date := some now }
    else b1
  if b2.status = "CANCELLED" ∧ b2.cancellation_date = none then
    { b2 with cancellation_date := some now }
  else b2

/-- `Booking.confirm_booking` (src/bookings/models.py:184-192): from PENDING,
sets status CONFIRMED, confirmation_date now, payment_status COMPLETED, saves
and returns True; otherwise returns False without saving. -/
def Booking.confirm_booking (b : Booking) (now : Int) (fresh : String) :
    Booking × Bool :=
  if b.status = "PENDING" then
    (Booking.save
      { b with
          status := "CONFIRMED"
          confirmation_date := some now
          payment_status := "COMPLETED" } fresh now, true)
  else
    (b, false)

/-- `Booking.cancel_booking` (src/bookings/models.py:194-205): when
`can_be_cancelled` holds and status is CONFIRMED, sets status CANCELLED and
cancellation_date, calls `travel_option.increase_available_seats(number_of_seats)`
(discarding its return value, as the source does), saves and returns True;
otherwise returns False without mutating anything. -/
def Booking.cancel_booking (b : Booking) (t : TravelOption) (now : Int)
    (fresh : String) : Booking × TravelOption × Bool :=
  if Booking.can_be_cancelled b t now ∧ b.status = "CONFIRMED" then
    let b1 := { b with status := "CANCELLED", cancellation_date := some now }
    let t1 := (t.increase_available_seats b.number_of_seats).1
    (Booking.save b1 fresh now, t1, true)
  else
    (b, t, false)

/-- Characterisation of the model-level cancellability check, shared by the
lifecycle proofs: it holds exactly for a status outside
{CANCELLED, COMPLETED} strictly more than 24 hours before departure (which in
particular implies departure has not passed). -/
theorem can_be_cancelled_char (b : Booking) (t : TravelOption) (now : Int) :
    Booking.can_be_cancelled b t now = true ↔
      b.status ≠ "CANCELLED" ∧ b.status ≠ "COMPLETED" ∧
        now < t.departure_datetime - 24 * 3600 := by
  simp only [Booking.can_be_cancelled, Booking.is_past_travel,
    TravelOption.can_be_cancelled]
  split_ifs with h1 h2
  · simp only [Bool.false_eq_true, false_iff]
    rcases h1 with h | h <;> simp [h]
  · simp only [decide_eq_true_eq] at h2
    simp only [Bool.false_eq_true, false_iff]
    push_neg at h1
    intro h
    omega
  · simp only [decide_eq_true_eq] at h2
    push_neg at h1
    simp [h1.1, h1.2]

/-- **C1 (counterexample).** A PENDING booking on a travel option departing
one hour from now (so strictly before departure, within the 24-hour window):
the claim asserts the model-level `can_be_cancelled` is true here, but the
code delegates to `TravelOption.can_be_cancelled`, whose 24-hour rule makes
it false. -/
theorem model_cancellable_within_24h_counterexample :
    (Booking.status
        ⟨"TKT0000001", 1, 100, "PENDING", "PENDING", none, none⟩ = "PENDING") ∧
    (0 : Int) < TravelOption.departure_datetime ⟨3600, 100, 5, 10⟩ ∧
    Booking.can_be_cancelled
      ⟨"TKT0000001", 1, 100, "PENDING", "PENDING", none, none⟩
      ⟨3600, 100, 5, 10⟩ 0 = false := by
  refine ⟨rfl, by decide, by decide⟩

/-- **C1 (amended).** `Booking.can_be_cancelled` is false when status is
CANCELLED or COMPLETED, when departure has passed, or when the current time
is within 24 hours of departure (the model delegates to
`TravelOption.can_be_cancelled`, since the `hasattr` guard always succeeds);
it is true exactly when the status is outside {CANCELLED, COMPLETED} and the
current time is strictly more than 24 hours before departure. -/
theorem model_cancellable_iff (b : Booking) (t : TravelOption) (now : Int) :
    Booking.can_be_cancelled b t now =
      (decide (b.status ≠ "CANCELLED") && decide (b.status ≠ "COMPLETED") &&
        decide (now < t.departure_datetime - 24 * 3600)) := by
  by_cases h : Booking.can_be_cancelled b t now = true
  · obtain ⟨h1, h2, h3⟩ := (can_be_cancelled_char b t now).mp h
    simp [h, h1, h2]
    omega
  · have hfalse : Booking.can_be_cancelled b t now = false :=
      Bool.eq_false_iff.mpr fun hh => h hh
    have h' := (can_be_cancelled_char b t now).not.mp h
    push_neg at h'
    by_cases h1 : b.status = "CANCELLED"
    · simp [hfalse, h1]
    · by_cases h2 : b.status = "COMPLETED"
      · simp [hfalse, h2]
      · have h4 : ¬ (now < t.departure_datetime - 24 * 3600) :=
          not_lt.mpr (h' h1 h2)
        simp [hfalse, h1, h2]
        omega

/-- **C4.** `confirm_booking` succeeds exactly from PENDING: it then returns
True with status CONFIRMED, payment_status COMPLETED and confirmation_date
set to the call time, and a second call is a no-op returning False (so
calling it twice only has effect the first time); from any other status it
returns False and changes no field. -/
theorem confirm_booking_spec (b : Booking) (now now2 : Int)
    (fresh fresh2 : String) :
    (b.status = "PENDING" →
      (b.confirm_booking now fresh).2 = true ∧
      (b.confirm_booking now fresh).1.status = "CONFIRMED" ∧
      (b.confirm_booking now fresh).1.payment_status = "COMPLETED" ∧
      (b.confirm_booking now fresh).1.confirmation_date = some now ∧
      (b.confirm_booking now fresh).1.confirm_booking now2 fresh2 =
        ((b.confirm_booking now fresh).1, false)) ∧
    (b.status ≠ "PENDING" → b.confirm_booking now fresh = (b, false)) := by
  constructor
  · intro h
    by_cases hid : b.booking_id = "" <;>
      simp [Booking.confirm_booking, Booking.save, h, hid]
  · intro h
    simp [Booking.confirm_booking, h]

/-- Witness for C4: a concrete PENDING booking is confirmed at time 5; the
confirmed fields are as specified and a repeat call at time 9 is a no-op. -/
theorem confirm_booking_spec_witness :
    (Booking.confirm_booking
        ⟨"TKT0000002", 2, 200, "PENDING", "PENDING", none, none⟩ 5 "x").2 =
      true ∧
    (Booking.confirm_booking
        ⟨"TKT0000002", 2, 200, "PENDING", "PENDING", none, none⟩ 5
        "x").1.status = "CONFIRMED" ∧
    (Booking.confirm_booking
        ⟨"TKT0000002", 2, 200, "PENDING", "PENDING", none, none⟩ 5
        "x").1.payment_status = "COMPLETED" ∧
    (Booking.confirm_booking
        ⟨"TKT0000002", 2, 200, "PENDING", "PENDING", none, none⟩ 5
        "x").1.confirmation_date = some 5 ∧
    (Booking.confirm_booking
        ⟨"TKT0000002", 2, 200, "PENDING", "PENDING", none, none⟩ 5
        "x").1.confirm_booking 9 "y" =
      ((Booking.confirm_booking
          ⟨"TKT0000002", 2, 200, "PENDING", "PENDING", none, none⟩ 5 "x").1,
        false) :=
  (confirm_booking_spec
    ⟨"TKT0000002", 2, 200, "PENDING", "PENDING", none, none⟩ 5 9 "x" "y").1
    rfl

/-- **C5 (counterexample).** A CONFIRMED, cancellable booking of 5 seats on
an option with 8 of 10 seats free: `cancel_booking` succeeds (returns True,
status CANCELLED), yet `available_seats` stays 8 because the guarded
`increase_available_seats` call fails (8 + 5 > 10) and its return value is
discarded — the claimed increase "by exactly number_of_seats" does not
happen. -/
theorem cancel_booking_seats_counterexample :
    (Booking.cancel_booking
        ⟨"TKT0000003", 5, 500, "CONFIRMED", "COMPLETED", some 0, none⟩
        ⟨864000, 100, 8, 10⟩ 0 "x").2.2 = true ∧
    (Booking.cancel_booking
        ⟨"TKT0000003", 5, 500, "CONFIRMED", "COMPLETED", some 0, none⟩
        ⟨864000, 100, 8, 10⟩ 0 "x").1.status = "CANCELLED" ∧
    (Booking.cancel_booking
        ⟨"TKT0000003", 5, 500, "CONFIRMED", "COMPLETED", some 0, none⟩
        ⟨864000, 100, 8, 10⟩ 0 "x").2.1.available_seats = 8 := by
  refine ⟨by decide, rfl, by decide⟩

/-- **C5 (amended).** `cancel_booking` is a no-op returning False unless the
status is CONFIRMED and `can_be_cancelled` holds; after a successful call the
status is CANCELLED, `cancellation_date` is set, `total_seats` is unchanged,
and `available_seats` increases by exactly `number_of_seats` when
`available_seats + number_of_seats ≤ total_seats`, and is left unchanged
otherwise (the result of `increase_available_seats` is discarded). -/
theorem cancel_booking_spec (b : Booking) (t : TravelOption) (now : Int)
    (fresh : String) :
    (Booking.can_be_cancelled b t now = true → b.status = "CONFIRMED" →
      (b.cancel_booking t now fresh).2.2 = true ∧
      (b.cancel_booking t now fresh).1.status = "CANCELLED" ∧
      (b.cancel_booking t now fresh).1.cancellation_date = some now ∧
      (b.cancel_booking t now fresh).2.1.available_seats =
        (if t.available_seats + b.number_of_seats ≤ t.total_seats then
          t.available_seats + b.number_of_seats
        else t.available_seats) ∧
      (b.cancel_booking t now fresh).2.1.total_seats = t.total_seats) ∧
    (¬ (Booking.can_be_cancelled b t now = true ∧ b.status = "CONFIRMED") →
      b.cancel_booking t now fresh = (b, t, false)) := by
  constructor
  · intro hc hs
    by_cases hid : b.booking_id = "" <;>
      by_cases hfit : t.available_seats + b.number_of_seats ≤ t.total_seats <;>
        simp [Booking.cancel_booking, Booking.save,
          TravelOption.increase_available_seats, hc, hs, hid, hfit]
  · intro hn
    simp only [Booking.cancel_booking]
    rw [if_neg]
    exact hn

/-- Witness for C5: a cancellable CONFIRMED booking of 2 seats on an option
with 3 of 10 seats free succeeds and the seats are restored to 5. -/
theorem cancel_booking_spec_witness :
    (Booking.cancel_booking
        ⟨"TKT0000004", 2, 200, "CONFIRMED", "COMPLETED", some 0, none⟩
        ⟨864000, 100, 3, 10⟩ 0 "x").2.2 = true ∧
    (Booking.cancel_booking
        ⟨"TKT0000004", 2, 200, "CONFIRMED", "COMPLETED", some 0, none⟩
        ⟨864000, 100, 3, 10⟩ 0 "x").1.status = "CANCELLED" ∧
    (Booking.cancel_booking
        ⟨"TKT0000004", 2, 200, "CONFIRMED", "COMPLETED", some 0, none⟩
        ⟨864000, 100, 3, 10⟩ 0 "x").1.cancellation_date = some 0 ∧
    (Booking.cancel_booking
        ⟨"TKT0000004", 2, 200, "CONFIRMED", "COMPLETED", some 0, none⟩
        ⟨864000, 100, 3, 10⟩ 0 "x").2.1.available_seats =
      (if 3 + 2 ≤ 10 then 3 + 2 else 3) ∧
    (Booking.cancel_booking
        ⟨"TKT0000004", 2, 200, "CONFIRMED", "COMPLETED", some 0, none⟩
        ⟨864000, 100, 3, 10⟩ 0 "x").2.1.total_seats = 10 :=
  (cancel_booking_spec
    ⟨"TKT0000004", 2, 200, "CONFIRMED", "COMPLETED", some 0, none⟩
    ⟨864000, 100, 3, 10⟩ 0 "x").1 (by decide) rfl

/-- **C6.** For a booking for which cancellation is eligible
(`can_be_cancelled` holds), `refund_amount` equals `total_price` times the
day-threshold schedule 90% / 75% / 50% / 0% applied to the floor difference
in calendar dates between departure and now (eligibility rules out past
travel, so `days_until_travel` is exactly that date difference).  The value
depends only on `total_price` and that day count; in the source
`refund_amount` is a read-only `@property`, embedded as a pure function, so
computing it mutates nothing — in particular not `payment_status`. -/
theorem refund_amount_spec (b : Booking) (t : TravelOption) (now : Int)
    (h : Booking.can_be_cancelled b t now = true) :
    Booking.refund_amount b t now =
      b.total_price *
        (if 7 ≤ dateOf t.departure_datetime - dateOf now then (9 : ℚ) / 10
         else if 3 ≤ dateOf t.departure_datetime - dateOf now then 3 / 4
         else if 1 ≤ dateOf t.departure_datetime - dateOf now then 1 / 2
         else 0) := by
  obtain ⟨h1, h2, h3⟩ := (can_be_cancelled_char b t now).mp h
  have hpast : Booking.is_past_travel b t now = false := by
    simp only [Booking.is_past_travel, decide_eq_false_iff_not]
    omega
  have hdays : Booking.days_until_travel b t now =
      dateOf t.departure_datetime - dateOf now := by
    simp [Booking.days_until_travel, hpast]
  simp only [Booking.refund_amount, h, not_true_eq_false, if_false, hdays]
  split_ifs <;> simp [mul_comm]

/-- Witness for C6: an eligible booking with price 100 departing 10 days from
now gets a 90% refund of 90. -/
theorem refund_amount_spec_witness :
    Booking.refund_amount
      ⟨"TKT0000005", 1, 100, "PENDING", "PENDING", none, none⟩
      ⟨864000, 100, 5, 10⟩ 0 = 100 * (if (7 : Int) ≤
        dateOf (TravelOption.departure_datetime ⟨864000, 100, 5, 10⟩) -
          dateOf 0 then (9 : ℚ) / 10
      else if (3 : Int) ≤
        dateOf (TravelOption.departure_datetime ⟨864000, 100, 5, 10⟩) -
          dateOf 0 then 3 / 4
      else if (1 : Int) ≤
        dateOf (TravelOption.departure_datetime ⟨864000, 100, 5, 10⟩) -
          dateOf 0 then 1 / 2
      else 0) :=
  refund_amount_spec
    ⟨"TKT0000005", 1, 100, "PENDING", "PENDING", none, none⟩
    ⟨864000, 100, 5, 10⟩ 0 (by decide)

/-- Embeds `PaymentView.post` together with `PaymentView.process_payment`
(src/bookings/views.py:319-367); the view's queryset restricts it to PENDING
bookings of the requesting user, and the probabilistic draw
(`random.random() < 0.95`) is the `draw` parameter.  On a passing draw the
view assigns `status = 'CONFIRMED'` and `payment_status = 'PAID'` directly on
the booking and saves (it does not call `confirm_booking`; note `'PAID'` is
not among the model's declared `PAYMENT_STATUS` choices, which a `CharField`
does not check at save time); on a failing draw it leaves the booking
untouched and redirects to the failure page, surfaced here as the returned
`false`. -/
def PaymentView.post (b : Booking) (now : Int) (fresh : String)
    (draw : Bool) : Booking × Bool :=
  if draw then
    (Booking.save { b with status := "CONFIRMED", payment_status := "PAID" }
      fresh now, true)
  else
    (b, false)

/-- **C7 (code evaluated at the failing input).** For a PENDING booking with
a passing draw, the payment flow leaves `payment_status = "PAID"`, not the
`"COMPLETED"` that `confirm_booking` (which the view never calls) would have
set — `'PAID'` is not even among the model's declared payment-status
choices; the failing-draw half of the claim does hold: the booking is
returned untouched with a failure. -/
theorem payment_flow_divergence :
    (PaymentView.post
        ⟨"TKT0000006", 1, 100, "PENDING", "PENDING", none, none⟩ 0 "x"
        true).1.payment_status = "PAID" ∧
    "PAID" ≠ "COMPLETED" ∧
    (Booking.confirm_booking
        ⟨"TKT0000006", 1, 100, "PENDING", "PENDING", none, none⟩ 0
        "x").1.payment_status = "COMPLETED" ∧
    PaymentView.post
        ⟨"TKT0000006", 1, 100, "PENDING", "PENDING", none, none⟩ 0 "x"
        false =
      (⟨"TKT0000006", 1, 100, "PENDING", "PENDING", none, none⟩, false) := by
  refine ⟨rfl, by decide, rfl, rfl⟩

/-- Embeds the dispatch gate of `BookingCancelView`
(src/bookings/views.py:433-449): the object lookup requires status CONFIRMED
and the request is rejected when
`departure_datetime <= now + timedelta(hours=24)`. -/
def BookingCancelView.dispatch_allows (b : Booking) (t : TravelOption)
    (now : Int) : Bool :=
  decide (b.status = "CONFIRMED") &&
    !(decide (t.departure_datetime ≤ now + 24 * 3600))

/-- Embeds `BookingCancelView.post` (src/bookings/views.py:460-491) on a
valid cancellation form.  The view does not call `cancel_booking`: it
assigns `status = 'CANCELLED'` and `cancellation_date` directly and saves,
and its next statement calls
`travel_option.restore_available_seats(number_of_seats)` — a method
`TravelOption` does not define (src/travel/models.py defines only
`reduce_available_seats` and `increase_available_seats`) — so the request
raises `AttributeError` at that point: seats are not restored, no
`BookingHistory` row is created and no refund amount is reported.  The
embedding returns `Except.error` carrying the state at the exception. -/
def BookingCancelView.post (b : Booking) (t : TravelOption) (now : Int)
    (fresh : String) :
    Except (Booking × TravelOption) (Booking × TravelOption × ℚ) :=
  let b1 := Booking.save
    { b with status := "CANCELLED", cancellation_date := some now } fresh now
  Except.error (b1, t)

/-- **C8 (code evaluated at the failing input).** A CONFIRMED booking of 2
seats, accepted by the flow-level 24-hour window, goes through the
cancellation flow: the booking is persisted as CANCELLED but the flow then
aborts with `AttributeError` (`restore_available_seats` does not exist), so
the travel option's seats stay at 3 — they are not restored by
`number_of_seats`, no history row is appended, and no refund is reported. -/
theorem cancel_flow_divergence :
    BookingCancelView.dispatch_allows
      ⟨"TKT0000007", 2, 200, "CONFIRMED", "COMPLETED", some 0, none⟩
      ⟨864000, 100, 3, 10⟩ 0 = true ∧
    BookingCancelView.post
      ⟨"TKT0000007", 2, 200, "CONFIRMED", "COMPLETED", some 0, none⟩
      ⟨864000, 100, 3, 10⟩ 0 "x" =
      Except.error
        (⟨"TKT0000007", 2, 200, "CANCELLED", "COMPLETED", some 0, some 0⟩,
          ⟨864000, 100, 3, 10⟩) := by
  refine ⟨by decide, rfl⟩

/-- Embeds `BookingForm.save` (src/bookings/forms.py:109-120): the new
booking carries the form's seat count and
`total_price = number_of_seats * travel_option.base_price` computed at that
moment, with the model defaults status PENDING / payment_status PENDING and
no id yet; committing persists it (generating the id) and then reduces the
travel option's seats, discarding the result. -/
def BookingForm.save (t : TravelOption) (seats : Nat) (fresh : String)
    (now : Int) : Booking × TravelOption :=
  let b : Booking :=
    { booking_id := ""
      number_of_seats := seats
      total_price := (seats : ℚ) * t.base_price
      status := "PENDING"
      payment_status := "PENDING"
      confirmation_date := none
      cancellation_date := none }
  (Booking.save b fresh now, (t.reduce_available_seats seats).1)

/-- An operation that can touch a booking or its travel option after
creation: the two model-level transitions, a bare model save, and an
inventory-side change of the option's base price. -/
inductive LifecycleOp where
  | confirm (now : Int) (fresh : String)
  | cancel (now : Int) (fresh : String)
  | modelSave (fresh : String) (now : Int)
  | setBasePrice (p : ℚ)

/-- Apply one post-creation operation to the pair (booking, travel option). -/
def applyLifecycleOp (s : Booking × TravelOption) (op : LifecycleOp) :
    Booking × TravelOption :=
  match op with
  | .confirm now fresh => ((s.1.confirm_booking now fresh).1, s.2)
  | .cancel now fresh =>
      let r := s.1.cancel_booking s.2 now fresh
      (r.1, r.2.1)
  | .modelSave fresh now => (Booking.save s.1 fresh now, s.2)
  | .setBasePrice p => (s.1, { s.2 with base_price := p })

/-- Apply a finite sequence of post-creation operations in order. -/
def applyLifecycleOps (s : Booking × TravelOption) (ops : List LifecycleOp) :
    Booking × TravelOption :=
  ops.foldl applyLifecycleOp s

theorem save_total_price (b : Booking) (fresh : String) (now : Int) :
    (Booking.save b fresh now).total_price = b.total_price := by
  simp only [Booking.save]
  split_ifs <;> rfl

theorem applyLifecycleOp_total_price (s : Booking × TravelOption)
    (op : LifecycleOp) :
    (applyLifecycleOp s op).1.total_price = s.1.total_price := by
  cases op with
  | confirm now fresh =>
    simp only [applyLifecycleOp, Booking.confirm_booking]
    split_ifs <;> simp [save_total_price]
  | cancel now fresh =>
    simp only [applyLifecycleOp, Booking.cancel_booking]
    split_ifs <;> simp [save_total_price]
  | modelSave fresh now => simp [applyLifecycleOp, save_total_price]
  | setBasePrice p => rfl

theorem applyLifecycleOps_total_price (s : Booking × TravelOption)
    (ops : List LifecycleOp) :
    (applyLifecycleOps s ops).1.total_price = s.1.total_price := by
  induction ops generalizing s with
  | nil => rfl
  | cons op ops ih =>
    have hstep := applyLifecycleOp_total_price s op
    have := ih (applyLifecycleOp s op)
    simpa [applyLifecycleOps, hstep] using this

/-- **C9.** `total_price` is set at creation (`BookingForm.save`) to
`number_of_seats` times the TravelOption's `base_price` at that moment, and
no later operation — `confirm_booking`, `cancel_booking`, any bare model
save, or any change to the TravelOption's `base_price` — ever recomputes or
mutates it. -/
theorem total_price_fixed_at_creation (t : TravelOption) (seats : Nat)
    (fresh : String) (now : Int) (ops : List LifecycleOp) :
    (applyLifecycleOps (BookingForm.save t seats fresh now)
        ops).1.total_price = (seats : ℚ) * t.base_price := by
  rw [applyLifecycleOps_total_price]
  simp [BookingForm.save, save_total_price]

/-- The field-level validators attached to `BookingForm.number_of_seats`
(src/bookings/forms.py:20-28): `MinValueValidator(1)` and
`MaxValueValidator(10)`. -/
def number_of_seats_validators_pass (seats : Int) : Bool :=
  decide (1 ≤ seats) && decide (seats ≤ 10)

/-- `BookingForm.clean_number_of_seats` (src/bookings/forms.py:100-107):
given the bound travel option, raises a ValidationError when the requested
seats exceed its `available_seats`; returns the seats otherwise.  Modelled
as whether the clean step passes. -/
def BookingForm.clean_number_of_seats (t : Option TravelOption)
    (seats : Int) : Bool :=
  match t with
  | some t => !(decide ((t.available_seats : Int) < seats))
  | none => true

/-- Overall validity of the submitted seat count: Django runs the field's
validators first, then the form's `clean_number_of_seats`. -/
def BookingForm.seats_valid (t : Option TravelOption) (seats : Int) : Bool :=
  number_of_seats_validators_pass seats &&
    BookingForm.clean_number_of_seats t seats

/-- **C10.** The booking form rejects any `number_of_seats` above 10 with a
validation error, whatever the travel option's availability — each single
booking is capped at 10 seats — and a submitted seat count is accepted
exactly when `1 ≤ seats ≤ 10` and `seats ≤ available_seats`, so the cap is
enforced in addition to the availability check. -/
theorem seats_capped_at_ten (t : TravelOption) (seats : Int) :
    (10 < seats → BookingForm.seats_valid (some t) seats = false) ∧
    (BookingForm.seats_valid (some t) seats = true ↔
      1 ≤ seats ∧ seats ≤ 10 ∧ seats ≤ (t.available_seats : Int)) := by
  constructor
  · intro h
    simp only [BookingForm.seats_valid, number_of_seats_validators_pass,
      Bool.and_eq_false_iff, decide_eq_false_iff_not, not_le]
    left
    right
    exact h
  · simp only [BookingForm.seats_valid, number_of_seats_validators_pass,
      BookingForm.clean_number_of_seats, Bool.and_eq_true,
      decide_eq_true_eq, Bool.not_eq_true', decide_eq_false_iff_not, not_lt]
    omega

/-- Witness for C10: on a travel option with 50 available seats (more than
10), a request for 11 seats is rejected, while 10 seats would pass all three
conditions. -/
theorem seats_capped_at_ten_witness :
    BookingForm.seats_valid (some ⟨864000, 100, 50, 60⟩) 11 = false ∧
    BookingForm.seats_valid (some ⟨864000, 100, 50, 60⟩) 10 = true :=
  ⟨(seats_capped_at_ten ⟨864000, 100, 50, 60⟩ 11).1 (by decide),
   (seats_capped_at_ten ⟨864000, 100, 50, 60⟩ 10).2.mpr
     (by norm_num)⟩

end TravelApp
